import Mathlib

/-
Verification development for the "beneficios" REST API (Express router over a
MongoDB collection, validated with express-validator).

Modelling conventions (shallow embedding):
  * A stored document / request body is a flat association list from dotted
    field paths (as express-validator and MongoDB dot paths address them,
    e.g. "endereco.logradouro") to leaf JSON values.  JSON nesting is encoded
    in the key, which is faithful for every field this API reads or writes.
  * MongoDB ObjectId values are modelled as their 24-character hex string;
    ObjectId construction from a malformed string throws in the driver, which
    the model renders as Option.none.
  * The shared collection handle is a list of documents plus a counter used to
    generate fresh storage-assigned ids.
  * Each route handler is a pure function from its request data and the
    database state to an HTTP response (and, for writes, the new state and the
    list of driver calls it issued).
-/

/-- Leaf JSON/BSON value: string, integer number, driver ObjectId, or null. -/
inductive JValue where
  | str : String → JValue
  | num : Int → JValue
  | oid : String → JValue
  | null : JValue
deriving Repr, DecidableEq, Inhabited

/-- A document or request body: flat map from dotted field path to value. -/
abbrev Doc := List (String × JValue)

/-- Field access (`body.x.y` as the dotted key "x.y"); `none` is JS undefined. -/
def lookupKey (d : Doc) (k : String) : Option JValue :=
  match d with
  | [] => none
  | (k', v) :: rest => if k' = k then some v else lookupKey rest k

/-- express-validator stringifies the field value before running a
validator.js check; null and undefined become the empty string. -/
def valueToString : Option JValue → String
  | some (.str s) => s
  | some (.num n) => toString n
  | some (.oid h) => h
  | some .null => ""
  | none => ""

def fieldStr (k : String) (d : Doc) : String := valueToString (lookupKey d k)

def isDigitChar (c : Char) : Bool := '0' ≤ c && c ≤ '9'

/-- validator.js isEmpty (default options): the stringified value has length 0. -/
def isEmptyStr (s : String) : Bool := s.toList.length == 0

def isJsWhitespace (c : Char) : Bool :=
  c == ' ' || c == '\t' || c == '\n' || c == '\r'

/-- JS String.prototype.trim on the character list. -/
def trimChars (cs : List Char) : List Char :=
  ((cs.dropWhile isJsWhitespace).reverse.dropWhile isJsWhitespace).reverse

/-- Body of validator.js isNumeric's regex after the optional sign:
digits, optionally with one dot that must be followed by at least one digit. -/
def isNumericBody (cs : List Char) : Bool :=
  match cs.span isDigitChar with
  | (intPart, rest) =>
    match rest with
    | [] => !intPart.isEmpty
    | '.' :: frac => !frac.isEmpty && frac.all isDigitChar
    | _ => false

/-- validator.js isNumeric (default options). -/
def isNumericStr (s : String) : Bool :=
  match s.toList with
  | '+' :: rest => isNumericBody rest
  | '-' :: rest => isNumericBody rest
  | cs => isNumericBody cs

/-- The data check's regex: exactly four digits, dash, two digits, dash,
two digits, anchored at both ends. -/
def matchesDataPattern (s : String) : Bool :=
  match s.toList with
  | [a, b, c, d, '-', e, f, '-', g, h] =>
      [a, b, c, d, e, f, g, h].all isDigitChar
  | _ => false

/-- One validator of a check chain: the field path it reports, the value it
reports as rejected, when it fails, and its failure message. -/
structure Rule where
  param : String
  getValue : Doc → Option JValue
  fails : Doc → Bool
  msg : String

/-- check('nome').not().isEmpty(): runs before the trim sanitizer. -/
def ruleNomeObrigatorio : Rule :=
  { param := "nome"
    getValue := fun d => lookupKey d "nome"
    fails := fun d => isEmptyStr (fieldStr "nome" d)
    msg := "É obrigatório informar o nome do benefício" }

/-- check('nome').isLength(min 5), after the trim sanitizer. -/
def ruleNomeMin : Rule :=
  { param := "nome"
    getValue := fun d => some (.str (String.mk (trimChars (fieldStr "nome" d).toList)))
    fails := fun d => decide ((trimChars (fieldStr "nome" d).toList).length < 5)
    msg := "O nome é muito curto. Mínimo de 5" }

/-- check('nome').isLength(max 200), after the trim sanitizer. -/
def ruleNomeMax : Rule :=
  { param := "nome"
    getValue := fun d => some (.str (String.mk (trimChars (fieldStr "nome" d).toList)))
    fails := fun d => decide (200 < (trimChars (fieldStr "nome" d).toList).length)
    msg := "O nome é muito longo. Máximo de 200" }

/-- check('endereco.logradouro').notEmpty(). -/
def ruleLogradouro : Rule :=
  { param := "endereco.logradouro"
    getValue := fun d => lookupKey d "endereco.logradouro"
    fails := fun d => isEmptyStr (fieldStr "endereco.logradouro" d)
    msg := "O Logradouro é obrigatório" }

/-- check('endereco.bairro').notEmpty(). -/
def ruleBairro : Rule :=
  { param := "endereco.bairro"
    getValue := fun d => lookupKey d "endereco.bairro"
    fails := fun d => isEmptyStr (fieldStr "endereco.bairro" d)
    msg := "O bairro é obrigatório" }

/-- check('endereco.cidade').notEmpty(). -/
def ruleCidade : Rule :=
  { param := "endereco.cidade"
    getValue := fun d => lookupKey d "endereco.cidade"
    fails := fun d => isEmptyStr (fieldStr "endereco.cidade" d)
    msg := "A localidade é obrigatório" }

/-- check('pontos').isNumeric(). -/
def rulePontos : Rule :=
  { param := "pontos"
    getValue := fun d => lookupKey d "pontos"
    fails := fun d => !isNumericStr (fieldStr "pontos" d)
    msg := "Os pontos devem ser um número" }

/-- check('data').matches(the yyyy-mm-dd pattern). -/
def ruleData : Rule :=
  { param := "data"
    getValue := fun d => lookupKey d "data"
    fails := fun d => !matchesDataPattern (fieldStr "data" d)
    msg := "O formato de data é inválido. Informe yyyy-mm-dd" }

/-- check('quantidade').isNumeric(). -/
def ruleQuantidade : Rule :=
  { param := "quantidade"
    getValue := fun d => lookupKey d "quantidade"
    fails := fun d => !isNumericStr (fieldStr "quantidade" d)
    msg := "A quantidade deve ser um número" }

/-- The validaBeneficio middleware array, flattened into its nine validators
in evaluation order (three from the nome chain, then one per later check). -/
def validaBeneficio : List Rule :=
  [ruleNomeObrigatorio, ruleNomeMin, ruleNomeMax,
   ruleLogradouro, ruleBairro, ruleCidade,
   rulePontos, ruleData, ruleQuantidade]

/-- One entry of validationResult(req).array(): rejected value, message, field. -/
structure ValError where
  value : Option JValue
  msg : String
  param : String
deriving Repr, DecidableEq

def mkValError (r : Rule) (d : Doc) : ValError :=
  ⟨r.getValue d, r.msg, r.param⟩

/-- validationResult(req).array(): every failed validator contributes its own
entry, in rule order; no chain bails out early (no .bail() in the source). -/
def validationErrors (d : Doc) : List ValError :=
  (validaBeneficio.filter (fun r => r.fails d)).map (fun r => mkValError r d)

/-- Hexadecimal digit (either case), as accepted in an ObjectId hex string. -/
def isHexChar (c : Char) : Bool :=
  isDigitChar c || ('a' ≤ c && c ≤ 'f') || ('A' ≤ c && c ≤ 'F')

/-- new ObjectId(s): succeeds exactly on a 24-character hex string, otherwise
the constructor throws (modelled as none). -/
def mkObjectId (s : String) : Option String :=
  if s.toList.length == 24 && s.toList.all isHexChar then some s else none

/-- The message of the error the ObjectId constructor throws on bad input. -/
def objectIdErrMsg : String :=
  "input must be a 24 character hex string, 12 byte Uint8Array, or an integer"

/-- The shared collection state: stored documents plus a counter from which
the storage layer draws fresh ObjectIds. -/
structure DB where
  docs : List Doc
  fresh : Nat
deriving Repr, DecidableEq

/-- Model of storage-side ObjectId generation. -/
def oidOfNat (n : Nat) : String := toString n

/-- Whether document d matches the selector on _id equal to ObjectId o. -/
def hasIdOid (o : String) (d : Doc) : Bool :=
  lookupKey d "_id" == some (.oid o)

/-- One {value, msg, param} entry of a structured error envelope. -/
structure ErrItem where
  value : String
  msg : String
  param : String
deriving Repr, DecidableEq

/-- The JSON body shapes this API responds with. -/
inductive RespBody where
  | docs : List Doc → RespBody
  | valErrors : List ValError → RespBody
  | errItems : List ErrItem → RespBody
  | insertResult : JValue → RespBody
  | updateResult : Nat → RespBody
  | deleteResult : Nat → RespBody
  | errorsMessage : String → RespBody
  | serverMessage : String → RespBody
deriving Repr, DecidableEq

structure HResp where
  status : Nat
  body : RespBody
deriving Repr, DecidableEq

/-- The driver operations a write handler can issue. -/
inductive DriverCall where
  | findCall
  | insertOneCall
  | updateOneCall
  | deleteOneCall
deriving Repr, DecidableEq

/-- Response, new database state, and the driver calls issued. -/
structure WriteResult where
  resp : HResp
  db : DB
  calls : List DriverCall
deriving Repr, DecidableEq

/-- JS parseInt digit run to a number, base 10. -/
def digitsToNat (ds : List Char) : Nat :=
  ds.foldl (fun a c => a * 10 + (c.toNat - '0'.toNat)) 0

def hexDigitVal (c : Char) : Nat :=
  if isDigitChar c then c.toNat - '0'.toNat
  else if 'a' ≤ c && c ≤ 'f' then c.toNat - 'a'.toNat + 10
  else c.toNat - 'A'.toNat + 10

def hexToNat (ds : List Char) : Nat :=
  ds.foldl (fun a c => a * 16 + hexDigitVal c) 0

/-- After sign handling, JS parseInt consumes a 0x/0X hex literal or a run of
leading decimal digits; no digits means NaN (none). -/
def parseIntUnsigned : List Char → Option Nat
  | '0' :: 'x' :: rest =>
      let ds := rest.takeWhile isHexChar
      if ds.isEmpty then none else some (hexToNat ds)
  | '0' :: 'X' :: rest =>
      let ds := rest.takeWhile isHexChar
      if ds.isEmpty then none else some (hexToNat ds)
  | cs =>
      let ds := cs.takeWhile isDigitChar
      if ds.isEmpty then none else some (digitsToNat ds)

/-- JS parseInt(string): skip leading whitespace, optional sign, then the
longest valid digit run; NaN is none.  An absent query parameter is
undefined, which stringifies to "undefined" and parses to NaN. -/
def parseIntJS : Option String → Option Int
  | none => none
  | some s =>
    match s.toList.dropWhile isJsWhitespace with
    | '-' :: rest => (parseIntUnsigned rest).map (fun n => -(n : Int))
    | '+' :: rest => (parseIntUnsigned rest).map (fun n => (n : Int))
    | cs => (parseIntUnsigned cs).map (fun n => (n : Int))

/-- JS a || b where a is the result of parseInt: NaN (none) and 0 are falsy,
so both fall back to the default. -/
def jsOrDefault (v : Option Int) (dflt : Int) : Int :=
  match v with
  | none => dflt
  | some n => if n == 0 then dflt else n

/-- The find-cursor configuration the list handler issues: limit, skip, and
a sort on the literal field name "order", ascending. -/
structure FindSpec where
  limit : Int
  skip : Int
  sortField : String
  sortDir : Int
deriving Repr, DecidableEq

set_option linter.unusedVariables false in
/-- GET / — the query the handler sends to the driver.  The order query
parameter is destructured from req.query but never used: the sort key is the
literal string "order". -/
def listFindSpec (limit skip order : Option String) : FindSpec :=
  { limit := jsOrDefault (parseIntJS limit) 10
    skip := jsOrDefault (parseIntJS skip) 0
    sortField := "order"
    sortDir := 1 }

/-- GET /id/:id — try new ObjectId(id); on success find and return the
matching documents with 200; the constructor throwing is caught and mapped
to 500 with one structured {value, msg, param} item. -/
def getById (id : String) (db : DB) : HResp :=
  match mkObjectId id with
  | none =>
      ⟨500, .errItems [⟨objectIdErrMsg, "Erro ao obter o benefício pelo ID", "/id/:id"⟩]⟩
  | some o => ⟨200, .docs (db.docs.filter (hasIdOid o))⟩

/-- Unicode simple case folding for the Basic Latin and Latin-1 ranges, as a
case-insensitive PCRE match applies it: ASCII A-Z and the Latin-1 uppercase
letters À-Þ (excluding ×) map to their lowercase partners 32 code points up. -/
def caseFold (c : Char) : Char :=
  if ('A' ≤ c && c ≤ 'Z') || ('À' ≤ c && c ≤ 'Þ' && c ≠ '×') then
    Char.ofNat (c.toNat + 32)
  else c

def foldStr (s : String) : List Char := s.toList.map caseFold

def listStartsWith : List Char → List Char → Bool
  | [], _ => true
  | _ :: _, [] => false
  | p :: ps, t :: ts => p == t && listStartsWith ps ts

/-- Whether pat occurs as a contiguous sublist of the text. -/
def listContainsSub (pat : List Char) : List Char → Bool
  | [] => pat.isEmpty
  | t :: ts => listStartsWith pat (t :: ts) || listContainsSub pat ts

/-- Model of the driver primitive MongoDB applies for
{ field: { $regex: pat, $options: 'i' } }: for a pattern free of regex
metacharacters (the only shape this model covers) an unanchored
case-insensitive regex match is exactly case-insensitive substring
containment. -/
def regexMatchI (pat s : String) : Bool :=
  listContainsSub (foldStr pat) (foldStr s)

/-- The characters that are special in a regular expression; the substring
reading of a $regex condition is only claimed for patterns avoiding them. -/
def regexMetaChars : List Char :=
  ['\\', '^', '$', '.', '|', '?', '*', '+', '(', ')', '[', ']',
   Char.ofNat 123, Char.ofNat 125]

def noRegexMeta (s : String) : Bool :=
  s.toList.all (fun c => !regexMetaChars.contains c)

/-- One branch of the $or query: a case-insensitive regex condition on one
field.  A document matches when the field holds a string the regex matches. -/
structure RegexCond where
  field : String
  pat : String

def condMatches (c : RegexCond) (d : Doc) : Bool :=
  match lookupKey d c.field with
  | some (.str s) => regexMatchI c.pat s
  | _ => false

def orQueryMatches (branches : List RegexCond) (d : Doc) : Bool :=
  branches.any (fun c => condMatches c d)

/-- GET /nome/:filtro — find with a single-branch $or holding one
case-insensitive regex condition on nome; 200 with all matches. -/
def searchByNome (filtro : String) (db : DB) : HResp :=
  ⟨200, .docs (db.docs.filter (orQueryMatches [⟨"nome", filtro⟩]))⟩

/-- deleteOne removes the first matching document. -/
def removeFirst (p : Doc → Bool) : List Doc → List Doc
  | [] => []
  | d :: rest => if p d then rest else d :: removeFirst p rest

/-- Outcome of the delete route: a response with the new state, or an
exception escaping the handler (this route has no try/catch). -/
inductive DeleteOutcome where
  | ok : HResp → DB → DeleteOutcome
  | unhandled : String → DeleteOutcome
deriving Repr, DecidableEq

/-- DELETE /:id — new ObjectId(id) throwing is not intercepted anywhere in
the handler, so a malformed id escapes as an unhandled failure; otherwise
deleteOne runs, 404 with a structured error naming the id when it deleted
nothing, 200 with the raw deletion result when it deleted one document. -/
def deleteById (id : String) (db : DB) : DeleteOutcome :=
  match mkObjectId id with
  | none => .unhandled objectIdErrMsg
  | some o =>
    if db.docs.any (hasIdOid o) then
      .ok ⟨200, .deleteResult 1⟩ ⟨removeFirst (hasIdOid o) db.docs, db.fresh⟩
    else
      .ok ⟨404, .errItems [⟨"Não há nenhum benefício com o id " ++ id,
                            "Erro ao excluir o benefício", "/:id"⟩]⟩ db

/-- insertOne(body): stores the body as-is.  A body without _id gets a fresh
storage-assigned ObjectId; a body whose _id collides with a stored document
makes the driver throw a duplicate-key error (none). -/
def insertOne (db : DB) (d : Doc) : Option (Doc × DB) :=
  match lookupKey d "_id" with
  | some v =>
      if db.docs.any (fun d' => lookupKey d' "_id" == some v) then none
      else some (d, ⟨db.docs ++ [d], db.fresh⟩)
  | none =>
      let stored := ("_id", JValue.oid (oidOfNat db.fresh)) :: d
      some (stored, ⟨db.docs ++ [stored], db.fresh + 1⟩)

/-- POST / — validaBeneficio has run; a non-empty error list is returned as
400 before any driver call; otherwise insertOne(req.body) and 201 with the
insertion result (a driver throw is caught as 500). -/
def postBeneficio (body : Doc) (db : DB) : WriteResult :=
  let errs := validationErrors body
  if errs.isEmpty then
    match insertOne db body with
    | some (stored, db') =>
        ⟨⟨201, .insertResult ((lookupKey stored "_id").getD .null)⟩, db', [.insertOneCall]⟩
    | none => ⟨⟨500, .serverMessage "duplicate key error Erro no Server"⟩, db, [.insertOneCall]⟩
  else ⟨⟨400, .valErrors errs⟩, db, []⟩

/-- delete body._id: removes the key from the field set. -/
def eraseKey (d : Doc) (k : String) : Doc :=
  d.filter (fun kv => kv.1 != k)

/-- One $set assignment: overwrite the field if present, else add it. -/
def setKey (d : Doc) (k : String) (v : JValue) : Doc :=
  if d.any (fun kv => kv.1 == k) then
    d.map (fun kv => if kv.1 = k then (k, v) else kv)
  else d ++ [(k, v)]

/-- updateOne's $set document: apply every assignment to the document. -/
def applySet (d : Doc) (fields : Doc) : Doc :=
  fields.foldl (fun acc kv => setKey acc kv.1 kv.2) d

/-- updateOne modifies the first matching document. -/
def updateFirst (p : Doc → Bool) (f : Doc → Doc) : List Doc → List Doc
  | [] => []
  | d :: rest => if p d then f d :: rest else d :: updateFirst p f rest

/-- PUT / — req.body._id is saved in idDocumento and deleted from the body;
validaBeneficio's errors (computed on the request) return 400 before any
driver call; otherwise updateOne selects by new ObjectId(idDocumento) and
$sets the remaining body fields, answering 202 with the update result.  A
throwing ObjectId constructor is caught as 500 with an errors-message body;
a missing _id makes new ObjectId(undefined) generate a fresh identifier. -/
def putBeneficio (body : Doc) (db : DB) : WriteResult :=
  let errs := validationErrors body
  let body' := eraseKey body "_id"
  if errs.isEmpty then
    match lookupKey body "_id" with
    | some (.str s) =>
        match mkObjectId s with
        | none => ⟨⟨500, .errorsMessage objectIdErrMsg⟩, db, []⟩
        | some o =>
            ⟨⟨202, .updateResult (if db.docs.any (hasIdOid o) then 1 else 0)⟩,
             ⟨updateFirst (hasIdOid o) (fun d => applySet d body') db.docs, db.fresh⟩,
             [.updateOneCall]⟩
    | none =>
        ⟨⟨202, .updateResult (if db.docs.any (hasIdOid (oidOfNat db.fresh)) then 1 else 0)⟩,
         ⟨updateFirst (hasIdOid (oidOfNat db.fresh)) (fun d => applySet d body') db.docs,
          db.fresh⟩,
         [.updateOneCall]⟩
    | some _ => ⟨⟨500, .errorsMessage objectIdErrMsg⟩, db, []⟩
  else ⟨⟨400, .valErrors errs⟩, db, []⟩

/-- A request body satisfying every validation rule. -/
def bodyValida : Doc :=
  [("nome", .str "Cesta Verde"),
   ("endereco.logradouro", .str "Rua A"),
   ("endereco.bairro", .str "Centro"),
   ("endereco.cidade", .str "Campinas"),
   ("pontos", .num 10),
   ("data", .str "2023-01-05"),
   ("quantidade", .num 2)]

/-- The same valid body with a client-chosen identifier field. -/
def bodyComId : Doc := ("_id", .str "meu-id-do-cliente") :: bodyValida

/-- A stored record named "Cesta Básica". -/
def docCesta : Doc :=
  [("_id", .oid "aaaaaaaaaaaaaaaaaaaaaaaa"), ("nome", .str "Cesta Básica")]

def dbCesta : DB := ⟨[docCesta], 7⟩

example : isNumericStr "10" = true := by decide
example : isNumericStr "-3.5" = true := by decide
example : isNumericStr "" = false := by decide
example : isNumericStr "12a" = false := by decide
example : matchesDataPattern "2023-01-31" = true := by decide
example : matchesDataPattern "9999-99-99" = true := by decide
example : matchesDataPattern "2023-1-31" = false := by decide
example : (validationErrors []).length = 8 := by decide
example : validationErrors bodyValida = [] := by decide
example : validationErrors bodyComId = [] := by decide

/-- Claim C1: on a create or update body every rule of the rule set is
evaluated regardless of earlier failures; the 400 response carries the full
error list, with exactly one {value, msg, param} entry per violated rule and
an entry for every violated rule, never stopping at the first error. -/
theorem validation_collects_all_failures (body : Doc) (db : DB) :
    (validationErrors body ≠ [] →
      (postBeneficio body db).resp = ⟨400, .valErrors (validationErrors body)⟩ ∧
      (putBeneficio body db).resp = ⟨400, .valErrors (validationErrors body)⟩) ∧
    (validationErrors body).length
      = (validaBeneficio.filter (fun r => r.fails body)).length ∧
    (∀ r, r ∈ validaBeneficio → r.fails body = true →
      mkValError r body ∈ validationErrors body) := by
  refine ⟨?_, ?_, ?_⟩
  · intro h
    have hE : (validationErrors body).isEmpty = false := by
      cases hv : validationErrors body with
      | nil => exact absurd hv h
      | cons a l => rfl
    constructor
    · unfold postBeneficio
      simp [hE]
    · unfold putBeneficio
      simp [hE]
  · unfold validationErrors
    exact List.length_map _ _
  · intro r hr hf
    exact List.mem_map_of_mem _ (List.mem_filter.mpr ⟨hr, hf⟩)

/-- Witness for C1 at the empty body, on which several rules fail at once. -/
theorem validation_collects_all_failures_witness :
    mkValError ruleNomeObrigatorio [] ∈ validationErrors [] ∧
    (postBeneficio [] ⟨[], 0⟩).resp = ⟨400, .valErrors (validationErrors [])⟩ :=
  ⟨(validation_collects_all_failures [] ⟨[], 0⟩).2.2 ruleNomeObrigatorio
      (by unfold validaBeneficio; exact List.Mem.head _) (by decide),
   ((validation_collects_all_failures [] ⟨[], 0⟩).1 (by decide)).1⟩

/-- Claim C9: when validation reports at least one failure, both write
handlers answer 400 having issued no driver call, leaving the stored
collection unchanged. -/
theorem write_validation_atomic (body : Doc) (db : DB)
    (h : validationErrors body ≠ []) :
    (postBeneficio body db).resp.status = 400 ∧
    (postBeneficio body db).db = db ∧
    (postBeneficio body db).calls = [] ∧
    (putBeneficio body db).resp.status = 400 ∧
    (putBeneficio body db).db = db ∧
    (putBeneficio body db).calls = [] := by
  have hE : (validationErrors body).isEmpty = false := by
    cases hv : validationErrors body with
    | nil => exact absurd hv h
    | cons a l => rfl
  unfold postBeneficio putBeneficio
  simp [hE]

/-- Witness for C9: a body violating the rules mutates nothing. -/
theorem write_validation_atomic_witness :
    (postBeneficio [] ⟨[docCesta], 3⟩).resp.status = 400 ∧
    (postBeneficio [] ⟨[docCesta], 3⟩).db = ⟨[docCesta], 3⟩ ∧
    (postBeneficio [] ⟨[docCesta], 3⟩).calls = [] ∧
    (putBeneficio [] ⟨[docCesta], 3⟩).resp.status = 400 ∧
    (putBeneficio [] ⟨[docCesta], 3⟩).db = ⟨[docCesta], 3⟩ ∧
    (putBeneficio [] ⟨[docCesta], 3⟩).calls = [] :=
  write_validation_atomic [] ⟨[docCesta], 3⟩ (by decide)

/-- Claim C7 fails as stated: "0" is a numeric value whose parsed integer is
0, yet the limit used is the default 10, not 0 — the fallback is not
restricted to absent or non-numeric parameters. -/
theorem list_limit_zero_counterexample :
    parseIntJS (some "0") = some 0 ∧
    (listFindSpec (some "0") none none).limit = 10 ∧
    (10 : Int) ≠ 0 := by
  refine ⟨by decide, by decide, by decide⟩

/-- Claim C7 (amended): limit and skip are parsed as integers and default to
10 and 0 when the parameter is absent, non-numeric, or parses to 0; a value
parsing to a nonzero integer is used as given. -/
theorem list_limit_skip_defaults (l s o : Option String) :
    ((parseIntJS l = none ∨ parseIntJS l = some 0) →
      (listFindSpec l s o).limit = 10) ∧
    (∀ n : Int, parseIntJS l = some n → n ≠ 0 → (listFindSpec l s o).limit = n) ∧
    ((parseIntJS s = none ∨ parseIntJS s = some 0) →
      (listFindSpec l s o).skip = 0) ∧
    (∀ n : Int, parseIntJS s = some n → n ≠ 0 → (listFindSpec l s o).skip = n) := by
  refine ⟨?_, ?_, ?_, ?_⟩
  · rintro (h | h) <;> simp [listFindSpec, jsOrDefault, h]
  · intro n hn hne
    simp [listFindSpec, jsOrDefault, hn, hne]
  · rintro (h | h) <;> simp [listFindSpec, jsOrDefault, h]
  · intro n hn hne
    simp [listFindSpec, jsOrDefault, hn, hne]

/-- Witness for the amended C7: a nonzero limit is used, a non-numeric skip
falls back to 0. -/
theorem list_limit_skip_defaults_witness :
    (listFindSpec (some "7") (some "abc") none).limit = 7 ∧
    (listFindSpec (some "7") (some "abc") none).skip = 0 :=
  ⟨(list_limit_skip_defaults (some "7") (some "abc") none).2.1 7 (by decide) (by decide),
   (list_limit_skip_defaults (some "7") (some "abc") none).2.2.1 (Or.inl (by decide))⟩

/-- Claim C10: whenever the limit string parses to the integer 0 the default
10 is used instead, so a zero-record page cannot be requested; a skip parsing
to 0 likewise falls back to the (coinciding) default 0. -/
theorem list_zero_parse_defaults (v : String) (l s o : Option String)
    (h : parseIntJS (some v) = some 0) :
    (listFindSpec (some v) s o).limit = 10 ∧
    (listFindSpec l (some v) o).skip = 0 := by
  constructor <;> simp [listFindSpec, jsOrDefault, h]

/-- Witness for C10 at the string "0". -/
theorem list_zero_parse_defaults_witness :
    (listFindSpec (some "0") none none).limit = 10 ∧
    (listFindSpec none (some "0") none).skip = 0 :=
  list_zero_parse_defaults "0" none none none (by decide)

/-- Claim C8: two list requests differing only in the order query parameter
issue the same find configuration — the sort is on the literal field "order",
ascending — and hence any driver evaluation of that configuration over the
same stored state gives the same response. -/
theorem list_order_noninterference (l s o1 o2 : Option String) :
    listFindSpec l s o1 = listFindSpec l s o2 ∧
    (listFindSpec l s o1).sortField = "order" ∧
    (listFindSpec l s o1).sortDir = 1 ∧
    (∀ exec : FindSpec → DB → List Doc, ∀ db : DB,
      exec (listFindSpec l s o1) db = exec (listFindSpec l s o2) db) :=
  ⟨rfl, rfl, rfl, fun _ _ => rfl⟩

/-- Storage invariant: the _id values present among the stored documents are
pairwise distinct (MongoDB maintains a unique index on _id). -/
def wfDB (db : DB) : Prop :=
  (db.docs.filterMap (fun d => lookupKey d "_id")).Nodup

theorem filter_hasId_length_le_one (o : String) (ds : List Doc)
    (h : (ds.filterMap (fun d => lookupKey d "_id")).Nodup) :
    (ds.filter (hasIdOid o)).length ≤ 1 := by
  induction ds with
  | nil => simp
  | cons d rest ih =>
    cases hl : lookupKey d "_id" with
    | none =>
      have hrest : (rest.filterMap (fun d => lookupKey d "_id")).Nodup := by
        simpa [List.filterMap_cons, hl] using h
      have hd : hasIdOid o d = false := by simp [hasIdOid, hl]
      simpa [List.filter_cons, hd] using ih hrest
    | some v =>
      have h' : (v :: rest.filterMap (fun d => lookupKey d "_id")).Nodup := by
        simpa [List.filterMap_cons, hl] using h
      have hnm : v ∉ rest.filterMap (fun d => lookupKey d "_id") :=
        (List.nodup_cons.mp h').1
      have hrest := (List.nodup_cons.mp h').2
      by_cases hd : hasIdOid o d = true
      · have hv : v = JValue.oid o := by
          have hd2 := hd
          simp [hasIdOid, hl] at hd2
          exact hd2
        have hnil : rest.filter (hasIdOid o) = [] := by
          rw [List.filter_eq_nil_iff]
          intro d' hd' hc
          have hld' : lookupKey d' "_id" = some (JValue.oid o) := by
            simpa [hasIdOid] using hc
          exact hnm (by rw [hv]; exact List.mem_filterMap.mpr ⟨d', hd', hld'⟩)
        simp [List.filter_cons, hd, hnil]
      · have hd' : hasIdOid o d = false := by simpa using hd
        simpa [List.filter_cons, hd'] using ih hrest

/-- Claim C2: a get-by-id request with a well-formed identifier answers 200
with the array of matching records, which under the storage invariant holds
zero or one documents and is empty ([], still 200) when nothing matches; a
malformed identifier answers 500 with one structured {value, msg, param}
error item. -/
theorem getById_contract (id : String) (db : DB) (hwf : wfDB db) :
    (∀ o, mkObjectId id = some o →
      (getById id db).status = 200 ∧
      ∃ ds, (getById id db).body = .docs ds ∧ ds.length ≤ 1 ∧
        (∀ d ∈ ds, lookupKey d "_id" = some (.oid o)) ∧
        ((∀ d ∈ db.docs, lookupKey d "_id" ≠ some (.oid o)) → ds = [])) ∧
    (mkObjectId id = none →
      getById id db
        = ⟨500, .errItems [⟨objectIdErrMsg,
                            "Erro ao obter o benefício pelo ID", "/id/:id"⟩]⟩) := by
  constructor
  · intro o ho
    unfold getById
    rw [ho]
    refine ⟨rfl, db.docs.filter (hasIdOid o), rfl,
            filter_hasId_length_le_one o db.docs hwf, ?_, ?_⟩
    · intro d hd
      have hm := (List.mem_filter.mp hd).2
      simpa [hasIdOid] using hm
    · intro hnone
      rw [List.filter_eq_nil_iff]
      intro d hd hc
      exact hnone d hd (by simpa [hasIdOid] using hc)
  · intro ho
    unfold getById
    rw [ho]

/-- Witness for C2: a present id, an absent id, and a malformed id. -/
theorem getById_contract_witness :
    (getById "aaaaaaaaaaaaaaaaaaaaaaaa" dbCesta).status = 200 ∧
    getById "not-an-objectid" dbCesta
      = ⟨500, .errItems [⟨objectIdErrMsg,
                          "Erro ao obter o benefício pelo ID", "/id/:id"⟩]⟩ :=
  ⟨(((getById_contract "aaaaaaaaaaaaaaaaaaaaaaaa" dbCesta
        (by unfold wfDB; decide)).1 "aaaaaaaaaaaaaaaaaaaaaaaa") (by decide)).1,
   (getById_contract "not-an-objectid" dbCesta (by unfold wfDB; decide)).2 (by decide)⟩

theorem removeFirst_length (p : Doc → Bool) (l : List Doc)
    (h : ∃ d ∈ l, p d = true) : (removeFirst p l).length + 1 = l.length := by
  induction l with
  | nil =>
    rcases h with ⟨d, hd, _⟩
    cases hd
  | cons a rest ih =>
    by_cases ha : p a = true
    · simp [removeFirst, ha]
    · have ha' : p a = false := by simpa using ha
      have hrest : ∃ d ∈ rest, p d = true := by
        rcases h with ⟨d, hd, hpd⟩
        rcases List.mem_cons.mp hd with hda | hdr
        · exact absurd (hda ▸ hpd) (by simp [ha'])
        · exact ⟨d, hdr, hpd⟩
      simpa [removeFirst, ha'] using ih hrest

/-- Claim C5: delete with a well-formed identifier answers 404 with a
structured error naming the id when nothing matches, and 200 with the raw
deletion result — having removed exactly one record — when a record matches;
a malformed identifier escapes as an unhandled failure because this handler,
alone among the routes, has no try/catch. -/
theorem deleteById_contract (id : String) (db : DB) :
    (∀ o, mkObjectId id = some o →
      ((∀ d ∈ db.docs, hasIdOid o d = false) →
        deleteById id db
          = .ok ⟨404, .errItems [⟨"Não há nenhum benefício com o id " ++ id,
                                  "Erro ao excluir o benefício", "/:id"⟩]⟩ db) ∧
      ((∃ d ∈ db.docs, hasIdOid o d = true) →
        ∃ db' : DB, deleteById id db = .ok ⟨200, .deleteResult 1⟩ db' ∧
          db'.docs.length + 1 = db.docs.length)) ∧
    (mkObjectId id = none → deleteById id db = .unhandled objectIdErrMsg) := by
  constructor
  · intro o ho
    constructor
    · intro hnone
      have hany : db.docs.any (hasIdOid o) = false := by
        rw [List.any_eq_false]
        intro d hd
        simp [hnone d hd]
      unfold deleteById
      rw [ho]
      simp [hany]
    · intro hsome
      have hany : db.docs.any (hasIdOid o) = true := by
        rw [List.any_eq_true]
        rcases hsome with ⟨d, hd, hpd⟩
        exact ⟨d, hd, hpd⟩
      unfold deleteById
      rw [ho]
      simp only [hany, if_true]
      exact ⟨⟨removeFirst (hasIdOid o) db.docs, db.fresh⟩, rfl,
             removeFirst_length (hasIdOid o) db.docs hsome⟩
  · intro ho
    unfold deleteById
    rw [ho]

/-- Witness for C5: hit, miss, and malformed id against the one-record db. -/
theorem deleteById_contract_witness :
    (∃ db' : DB,
      deleteById "aaaaaaaaaaaaaaaaaaaaaaaa" dbCesta = .ok ⟨200, .deleteResult 1⟩ db' ∧
      db'.docs.length + 1 = dbCesta.docs.length) ∧
    deleteById "bbbbbbbbbbbbbbbbbbbbbbbb" dbCesta
      = .ok ⟨404, .errItems [⟨"Não há nenhum benefício com o id bbbbbbbbbbbbbbbbbbbbbbbb",
                              "Erro ao excluir o benefício", "/:id"⟩]⟩ dbCesta ∧
    deleteById "zz" dbCesta = .unhandled objectIdErrMsg :=
  ⟨((deleteById_contract "aaaaaaaaaaaaaaaaaaaaaaaa" dbCesta).1
      "aaaaaaaaaaaaaaaaaaaaaaaa" (by decide)).2 ⟨docCesta, by decide, by decide⟩,
   ((deleteById_contract "bbbbbbbbbbbbbbbbbbbbbbbb" dbCesta).1
      "bbbbbbbbbbbbbbbbbbbbbbbb" (by decide)).1 (by decide),
   (deleteById_contract "zz" dbCesta).2 (by decide)⟩

theorem orQuery_nome_iff (filtro : String) (d : Doc) :
    (orQueryMatches [⟨"nome", filtro⟩] d = true)
      ↔ ∃ s, lookupKey d "nome" = some (.str s) ∧
          listContainsSub (foldStr filtro) (foldStr s) = true := by
  cases h : lookupKey d "nome" with
  | none => simp [orQueryMatches, condMatches, h]
  | some v => cases v <;> simp [orQueryMatches, condMatches, regexMatchI, h]

/-- Claim C6 fails as stated: the record named "Cesta Básica" is not returned
for the search string "ta bas" — case-insensitive matching folds letter case
only, and the accented á of Básica is not the letter a. -/
theorem searchByNome_ta_bas_counterexample :
    lookupKey docCesta "nome" = some (.str "Cesta Básica") ∧
    docCesta ∈ dbCesta.docs ∧
    (searchByNome "ta bas" dbCesta).body = .docs [] := by
  refine ⟨by decide, by decide, by decide⟩

set_option linter.unusedVariables false in
/-- Claim C6 (amended): the query is a single-branch $or performing a
case-insensitive substring match against nome only (stated for filter strings
free of regex metacharacters): a record is returned exactly when its nome
holds a string containing the filter up to letter case.  "Cesta Básica" is
returned for "cesta", "BÁSICA" and "ta bás", but not for "ta bas", since case
folding does not erase the accent of á.  The filter hypothesis marks the
model boundary: the embedding reads the $regex condition as literal substring
containment, which is only the driver semantics for metacharacter-free
patterns. -/
theorem searchByNome_contract (filtro : String) (db : DB)
    (hmeta : noRegexMeta filtro = true) :
    (searchByNome filtro db).status = 200 ∧
    (∃ ds, (searchByNome filtro db).body = .docs ds ∧
      ∀ d, d ∈ ds ↔ d ∈ db.docs ∧ ∃ s, lookupKey d "nome" = some (.str s) ∧
        listContainsSub (foldStr filtro) (foldStr s) = true) ∧
    (searchByNome "cesta" dbCesta).body = .docs [docCesta] ∧
    (searchByNome "BÁSICA" dbCesta).body = .docs [docCesta] ∧
    (searchByNome "ta bás" dbCesta).body = .docs [docCesta] ∧
    (searchByNome "ta bas" dbCesta).body = .docs [] := by
  refine ⟨rfl, ⟨db.docs.filter (orQueryMatches [⟨"nome", filtro⟩]), rfl, ?_⟩,
          by decide, by decide, by decide, by decide⟩
  intro d
  rw [List.mem_filter, orQuery_nome_iff]

/-- Witness for the amended C6 at the filter "cesta" over the one-record db. -/
theorem searchByNome_contract_witness :
    (searchByNome "cesta" dbCesta).status = 200 ∧
    (searchByNome "cesta" dbCesta).body = .docs [docCesta] :=
  ⟨(searchByNome_contract "cesta" dbCesta (by decide)).1,
   (searchByNome_contract "cesta" dbCesta (by decide)).2.2.1⟩

/-- Claim C3 fails as stated: the create handler inserts req.body as-is, so a
valid payload carrying a client-chosen _id is stored with exactly that _id —
the client-supplied identifier does take effect as the record's id. -/
theorem post_client_id_counterexample :
    validationErrors bodyComId = [] ∧
    (postBeneficio bodyComId ⟨[], 0⟩).resp.status = 201 ∧
    (postBeneficio bodyComId ⟨[], 0⟩).db.docs = [bodyComId] ∧
    lookupKey bodyComId "_id" = some (.str "meu-id-do-cliente") := by
  refine ⟨by decide, by decide, by decide, by decide⟩

/-- Claim C3 (amended): create inserts the full body.  The storage layer
assigns the identifier only when the body carries no _id field; a
client-supplied _id is stored as given and becomes the record's id (the
driver rejecting only a duplicate of a stored id). -/
theorem post_id_assignment (body : Doc) (db : DB)
    (hval : validationErrors body = []) :
    (lookupKey body "_id" = none →
      (postBeneficio body db).resp.status = 201 ∧
      (postBeneficio body db).db.docs
        = db.docs ++ [("_id", JValue.oid (oidOfNat db.fresh)) :: body]) ∧
    (∀ v, lookupKey body "_id" = some v →
      (∀ d ∈ db.docs, lookupKey d "_id" ≠ some v) →
      (postBeneficio body db).resp.status = 201 ∧
      (postBeneficio body db).db.docs = db.docs ++ [body]) := by
  have hE : (validationErrors body).isEmpty = true := by rw [hval]; rfl
  constructor
  · intro h
    unfold postBeneficio insertOne
    simp [hE, h]
  · intro v hv hfreshv
    have hany : (db.docs.any (fun d' => lookupKey d' "_id" == some v)) = false := by
      rw [List.any_eq_false]
      intro d hd
      simp [hfreshv d hd]
    unfold postBeneficio insertOne
    simp [hE, hv, hany]

/-- Witness for the amended C3: without _id storage assigns oid 0; with a
fresh client id the body is stored as sent. -/
theorem post_id_assignment_witness :
    ((postBeneficio bodyValida ⟨[], 0⟩).db.docs
      = [("_id", JValue.oid (oidOfNat 0)) :: bodyValida]) ∧
    ((postBeneficio bodyComId ⟨[], 0⟩).db.docs = [bodyComId]) :=
  ⟨((post_id_assignment bodyValida ⟨[], 0⟩ (by decide)).1 (by decide)).2,
   ((post_id_assignment bodyComId ⟨[], 0⟩ (by decide)).2
      (.str "meu-id-do-cliente") (by decide) (by simp)).2⟩

theorem lookupKey_eraseKey_self (d : Doc) (k : String) :
    lookupKey (eraseKey d k) k = none := by
  induction d with
  | nil => rfl
  | cons kv rest ih =>
    by_cases hk : kv.1 = k
    · simpa [eraseKey, hk] using ih
    · have hne : (kv.1 != k) = true := by simp [hk]
      simpa [eraseKey, lookupKey, hne, hk] using ih

theorem eraseKey_keys_ne (d : Doc) (k : String) :
    ∀ kv ∈ eraseKey d k, kv.1 ≠ k := by
  intro kv hkv
  have h := (List.mem_filter.mp hkv).2
  simpa using h

theorem lookupKey_overwrite_ne (d : Doc) (k k' : String) (v : JValue)
    (h : k' ≠ k) :
    lookupKey (d.map (fun kv => if kv.1 = k then (k, v) else kv)) k'
      = lookupKey d k' := by
  induction d with
  | nil => rfl
  | cons kv rest ih =>
    obtain ⟨k1, v1⟩ := kv
    by_cases hk : k1 = k
    · subst hk
      have hkk' : ¬(k1 = k') := fun hc => h hc.symm
      simp only [List.map_cons, if_pos rfl]
      simp [lookupKey, hkk', ih]
    · simp only [List.map_cons, if_neg hk]
      simp [lookupKey, ih]

theorem lookupKey_append_single_ne (d : Doc) (k k' : String) (v : JValue)
    (h : k' ≠ k) :
    lookupKey (d ++ [(k, v)]) k' = lookupKey d k' := by
  induction d with
  | nil =>
    have : ¬(k = k') := fun hc => h hc.symm
    simp [lookupKey, this]
  | cons kv rest ih =>
    by_cases hk' : kv.1 = k'
    · simp [lookupKey, hk']
    · simp [lookupKey, hk', ih]

theorem lookupKey_setKey_ne (d : Doc) (k k' : String) (v : JValue)
    (h : k' ≠ k) : lookupKey (setKey d k v) k' = lookupKey d k' := by
  unfold setKey
  by_cases hmem : d.any (fun kv => kv.1 == k) = true
  · rw [if_pos hmem]
    exact lookupKey_overwrite_ne d k k' v h
  · rw [if_neg hmem]
    exact lookupKey_append_single_ne d k k' v h

theorem lookupKey_applySet_ne (fields : Doc) (k : String)
    (hk : ∀ kv ∈ fields, kv.1 ≠ k) :
    ∀ d : Doc, lookupKey (applySet d fields) k = lookupKey d k := by
  induction fields with
  | nil => intro d; rfl
  | cons kv rest ih =>
    intro d
    have h1 : kv.1 ≠ k := hk kv (List.Mem.head _)
    have h2 : ∀ kv' ∈ rest, kv'.1 ≠ k := fun kv' h' => hk kv' (List.Mem.tail _ h')
    calc lookupKey (applySet (setKey d kv.1 kv.2) rest) k
        = lookupKey (setKey d kv.1 kv.2) k := ih h2 (setKey d kv.1 kv.2)
      _ = lookupKey d k := lookupKey_setKey_ne d kv.1 k kv.2 (fun hc => h1 hc.symm)

theorem map_updateFirst (p : Doc → Bool) (f : Doc → Doc) (g : Doc → Option JValue)
    (l : List Doc) (h : ∀ d, g (f d) = g d) :
    (updateFirst p f l).map g = l.map g := by
  induction l with
  | nil => rfl
  | cons d rest ih =>
    by_cases hp : p d = true
    · simp [updateFirst, hp, h d]
    · have hp' : p d = false := by simpa using hp
      simp [updateFirst, hp', ih]

/-- Claim C4: the update handler takes the client-supplied _id out of the
body before consulting the validation result, uses it only to build the
selector, and writes the remaining fields: no stored document's _id field is
changed by an update, and on the success path the selected document receives
exactly the body minus its _id as the $set field set. -/
theorem putBeneficio_contract (body : Doc) (db : DB) :
    lookupKey (eraseKey body "_id") "_id" = none ∧
    (putBeneficio body db).db.docs.map (fun d => lookupKey d "_id")
      = db.docs.map (fun d => lookupKey d "_id") ∧
    (∀ s o, lookupKey body "_id" = some (.str s) → mkObjectId s = some o →
      validationErrors body = [] →
      (putBeneficio body db).resp.status = 202 ∧
      (putBeneficio body db).db.docs
        = updateFirst (hasIdOid o)
            (fun d => applySet d (eraseKey body "_id")) db.docs) := by
  have hid : ∀ d : Doc,
      lookupKey (applySet d (eraseKey body "_id")) "_id" = lookupKey d "_id" :=
    lookupKey_applySet_ne (eraseKey body "_id") "_id" (eraseKey_keys_ne body "_id")
  refine ⟨lookupKey_eraseKey_self body "_id", ?_, ?_⟩
  · cases hE : (validationErrors body).isEmpty with
    | false =>
      unfold putBeneficio
      simp [hE]
    | true =>
      cases hv : lookupKey body "_id" with
      | none =>
        unfold putBeneficio
        simp only [hE, hv, if_true]
        exact map_updateFirst _ _ _ _ hid
      | some v =>
        cases v with
        | str s =>
          cases hmk : mkObjectId s with
          | none =>
            unfold putBeneficio
            simp [hE, hv, hmk]
          | some o =>
            unfold putBeneficio
            simp only [hE, hv, hmk, if_true]
            exact map_updateFirst _ _ _ _ hid
        | num n =>
          unfold putBeneficio
          simp [hE, hv]
        | oid x =>
          unfold putBeneficio
          simp [hE, hv]
        | null =>
          unfold putBeneficio
          simp [hE, hv]
  · intro s o hs hmk hval
    have hE : (validationErrors body).isEmpty = true := by rw [hval]; rfl
    unfold putBeneficio
    simp [hE, hs, hmk]

def oidHex : String := "0123456789abcdef01234567"

/-- A stored record about to be updated. -/
def docAntigo : Doc :=
  [("_id", .oid oidHex), ("nome", .str "Cesta Antiga"), ("pontos", .num 3)]

/-- A PUT body: the stored record's id plus a full replacement field set. -/
def bodyPut : Doc := ("_id", .str oidHex) :: bodyValida

def dbPut : DB := ⟨[docAntigo], 9⟩

/-- Witness for C4: updating the stored record changes its fields but never
its _id. -/
theorem putBeneficio_contract_witness :
    (putBeneficio bodyPut dbPut).resp.status = 202 ∧
    (putBeneficio bodyPut dbPut).db.docs.map (fun d => lookupKey d "_id")
      = dbPut.docs.map (fun d => lookupKey d "_id") ∧
    (putBeneficio bodyPut dbPut).db.docs
      = updateFirst (hasIdOid oidHex)
          (fun d => applySet d (eraseKey bodyPut "_id")) dbPut.docs :=
  ⟨((putBeneficio_contract bodyPut dbPut).2.2 oidHex oidHex
      (by decide) (by decide) (by decide)).1,
   (putBeneficio_contract bodyPut dbPut).2.1,
   ((putBeneficio_contract bodyPut dbPut).2.2 oidHex oidHex
      (by decide) (by decide) (by decide)).2⟩
